import Mathlib

/-
Verification of the PromptOptimizer core (prompt_optimization.py).

Prompts are modelled as lists of characters (`List Char`), the character
data of Python strings.  Python's built-in string operations used by the
source (`str.replace`, `str.strip`, `str.split`, `str.lower`, `in`,
`str.count`, `str.format`) are embedded as executable functions below;
fuel-based recursion (fuel = input length) is used where the natural
recursion is not structural, so that every definition reduces in the
kernel.  Fallible operations (`get_optimized_prompt`, which can raise
ValueError or KeyError) return `Except PyError`.
-/

set_option autoImplicit false
set_option maxRecDepth 100000
set_option maxHeartbeats 2000000

/-- Whitespace characters recognised by Python's default `str.split` and
`str.strip` (the ASCII whitespace set; the prompts of this program are
ASCII). -/
def isPySpace (c : Char) : Bool :=
  c == ' ' || c == '\t' || c == '\n' || c == '\r' || c == '\x0B' || c == '\x0C'

/-- Character data of a string literal; used to write prompt constants. -/
def S (s : String) : List Char := s.data

/-- Python `str.lstrip()` on character lists. -/
def pyLstrip (s : List Char) : List Char := s.dropWhile isPySpace

/-- Python `str.strip()` on character lists: drop leading and trailing
whitespace. -/
def pyStrip (s : List Char) : List Char :=
  ((pyLstrip s).reverse.dropWhile isPySpace).reverse

/-- Helper for `pySplit`: walks the characters, accumulating the current
word (reversed) in `acc`. -/
def pySplitAux : List Char → List Char → List (List Char)
  | [], acc => if acc.isEmpty then [] else [acc.reverse]
  | c :: cs, acc =>
    if isPySpace c then
      (if acc.isEmpty then pySplitAux cs [] else acc.reverse :: pySplitAux cs [])
    else pySplitAux cs (c :: acc)

/-- Python `str.split()` with no separator: maximal runs of
non-whitespace characters. -/
def pySplit (s : List Char) : List (List Char) := pySplitAux s []

/-- Python `sub in s` substring containment, as a Bool. -/
def containsSub (sub : List Char) : List Char → Bool
  | [] => sub.isEmpty
  | c :: cs => sub.isPrefixOf (c :: cs) || containsSub sub cs

/-- Helper for `pyReplace`; fuel-based so it reduces in the kernel.  The
fuel never runs out when it starts at the length of the scanned list and
the pattern `old` is non-empty (the program only replaces the non-empty
patterns "please", "thanks", "okay"). -/
def pyReplaceAux (old new : List Char) : Nat → List Char → List Char
  | _, [] => []
  | 0, s => s
  | n + 1, c :: cs =>
    if !old.isEmpty && old.isPrefixOf (c :: cs) then
      new ++ pyReplaceAux old new n (List.drop old.length (c :: cs))
    else
      c :: pyReplaceAux old new n cs

/-- Python `s.replace(old, new)`: single-pass, left-to-right,
non-overlapping replacement of every occurrence of `old` by `new`. -/
def pyReplace (s old new : List Char) : List Char :=
  pyReplaceAux old new s.length s

/-- Python `sep.join(items)`. -/
def joinWith (sep : List Char) : List (List Char) → List Char
  | [] => []
  | [x] => x
  | x :: y :: xs => x ++ sep ++ joinWith sep (y :: xs)

/-- Python `str.lower()` (ASCII lowering; the program's keywords are
ASCII). -/
def pyLower (s : List Char) : List Char := s.map Char.toLower

/- ## The technique functions (PromptOptimizer methods) -/

/-- The `clarity_rules["replace"]` pairs of `_enhance_clarity`. -/
def clarity_replace_rules : List (List Char × List Char) :=
  [(S "please", S ""), (S "thanks", S ""), (S "okay", S "")]

/-- The `clarity_rules["add"]` sentences of `_enhance_clarity`. -/
def clarity_add_rules : List (List Char) :=
  [S "Be concise and direct.", S "Provide specific examples.",
   S "Focus on actionable insights."]

/-- `PromptOptimizer._enhance_clarity`: apply the replace rules in order,
append two newlines and the space-joined add sentences, then strip. -/
def _enhance_clarity (prompt : List Char) : List Char :=
  pyStrip ((clarity_replace_rules.foldl (fun acc r => pyReplace acc r.1 r.2) prompt)
    ++ S "\n\n" ++ joinWith (S " ") clarity_add_rules)

/-- The `specificity_additions` list of `_add_specificity`. -/
def specificity_additions : List (List Char) :=
  [S "Provide specific examples or code snippets.",
   S "Include exact error messages or outputs.",
   S "Specify the programming language if applicable.",
   S "Mention version numbers of tools/libraries."]

/-- `PromptOptimizer._add_specificity`. -/
def _add_specificity (prompt : List Char) : List Char :=
  prompt ++ S "\n\n"
    ++ joinWith (S "\n") (specificity_additions.map (fun item => S "- " ++ item))

/-- The literal `context_template` of `_add_context` (leading newline and
trailing 8-space indentation exactly as in the triple-quoted source
string; its placeholders are left unfilled by the source). -/
def context_template : List Char :=
  S "\nCONTEXT INFORMATION:\n- Purpose: {purpose}\n- Constraints: {constraints}\n- Expected Output: {output}\n        "

/-- `PromptOptimizer._add_context`. -/
def _add_context (prompt : List Char) : List Char := prompt ++ context_template

/-- The part of the `_structure_prompt` f-string before the interpolated
prompt. -/
def structure_head : List Char := S "\nTASK: "

/-- The part of the `_structure_prompt` f-string after the interpolated
prompt. -/
def structure_tail : List Char :=
  S "\n\nREQUIREMENTS:\n1. Provide clear, step-by-step guidance\n2. Include code examples where applicable\n3. Highlight important considerations\n4. Suggest best practices\n\nFORMAT:\n- Use bullet points for lists\n- Use code blocks for code\n- Use bold for key terms\n        "

/-- `PromptOptimizer._structure_prompt`: wrap the current prompt in the
fixed template and strip the result. -/
def _structure_prompt (prompt : List Char) : List Char :=
  pyStrip (structure_head ++ prompt ++ structure_tail)

/-- The literal `examples_section` of `_add_examples`. -/
def examples_section : List Char :=
  S "\nEXAMPLES:\n- Good: [Specific example of what\x27s expected]\n- Avoid: [Example of what to avoid]\n        "

/-- `PromptOptimizer._add_examples`. -/
def _add_examples (prompt : List Char) : List Char :=
  prompt ++ S "\n" ++ examples_section

/-- The `optimization_techniques` dispatch table built in `__init__`. -/
def optimization_techniques : List (String × (List Char → List Char)) :=
  [("clarity", _enhance_clarity),
   ("specificity", _add_specificity),
   ("context", _add_context),
   ("structure", _structure_prompt),
   ("examples", _add_examples)]

/-- `PromptOptimizer.optimize` with an explicit technique list: fold over
the names, applying the registered function when the name is in the
dispatch table and leaving the accumulator unchanged otherwise. -/
def optimize (prompt : List Char) (techniques : List String) : List Char :=
  techniques.foldl (fun acc t =>
    match optimization_techniques.find? (fun pr => pr.1 == t) with
    | some pr => pr.2 acc
    | none => acc) prompt

/-- The default technique list used when `optimize` is called with
`techniques=None`. -/
def default_techniques : List String := ["clarity", "specificity", "structure"]

/-- `optimize` with the default technique list. -/
def optimizeDefault (prompt : List Char) : List Char :=
  optimize prompt default_techniques

/-- `PromptOptimizer.batch_optimize`: optimize each prompt independently,
in order. -/
def batch_optimize (prompts : List (List Char)) : List (List Char) :=
  prompts.map optimizeDefault

/- ## Template registry and str.format -/

/-- The `prompt_templates` registry built by `_load_templates`. -/
def prompt_templates : List (String × List Char) :=
  [("code_review", S "Review the following code for issues:\n{code}\nFocus on: {focus_areas}"),
   ("github_task", S "Help me with this GitHub task:\n{task}\nContext: {context}"),
   ("optimization", S "Optimize this {type}:\n{content}\nCriteria: {criteria}"),
   ("debugging", S "Help me debug this issue:\n{issue}\nError: {error}\nSteps: {steps}")]

/-- Errors the program can raise: `ValueError` (unknown template name,
malformed format string) and `KeyError` (missing substitution value). -/
inductive PyError where
  | valueError (msg : List Char)
  | keyError (key : List Char)
deriving DecidableEq

/-- The opening brace character. -/
def lbrace : Char := Char.ofNat 123

/-- The closing brace character. -/
def rbrace : Char := Char.ofNat 125

/-- Read a field name up to the next closing brace; `none` when the brace
is never closed. -/
def splitBrace : List Char → Option (List Char × List Char)
  | [] => none
  | c :: rest =>
    if c = rbrace then some ([], rest)
    else Option.map (fun pr => (c :: pr.1, pr.2)) (splitBrace rest)

/-- Look up a substitution key among the supplied keyword arguments
(first match wins; Python dict keys are unique so this is faithful). -/
def findSub (key : List Char) (subs : List (List Char × List Char)) : Option (List Char) :=
  Option.map Prod.snd (subs.find? (fun pr => pr.1 == key))

/-- Python `template.format(**subs)` for plain named fields, fuel-based
(fuel = template length suffices).  Doubled braces denote literal braces,
a single closing brace is a ValueError, an unclosed field is a
ValueError, and a field name absent from `subs` is a KeyError. -/
def pyFormatAux (subs : List (List Char × List Char)) : Nat → List Char → Except PyError (List Char)
  | _, [] => Except.ok []
  | 0, _ => Except.error (PyError.valueError (S "format: out of fuel"))
  | n + 1, c :: cs =>
    if c = lbrace then
      match cs with
      | c2 :: rest =>
        if c2 = lbrace then
          Except.map (fun t => lbrace :: t) (pyFormatAux subs n rest)
        else
          match splitBrace cs with
          | none => Except.error (PyError.valueError (S "expected closing brace"))
          | some pr =>
            match findSub pr.1 subs with
            | none => Except.error (PyError.keyError pr.1)
            | some v => Except.map (fun t => v ++ t) (pyFormatAux subs n pr.2)
      | [] => Except.error (PyError.valueError (S "expected closing brace"))
    else if c = rbrace then
      match cs with
      | c2 :: rest =>
        if c2 = rbrace then
          Except.map (fun t => rbrace :: t) (pyFormatAux subs n rest)
        else Except.error (PyError.valueError (S "single closing brace"))
      | [] => Except.error (PyError.valueError (S "single closing brace"))
    else Except.map (fun t => c :: t) (pyFormatAux subs n cs)

/-- Python `template.format(**subs)`. -/
def pyFormat (template : List Char) (subs : List (List Char × List Char)) : Except PyError (List Char) :=
  pyFormatAux subs template.length template

/-- The field names referenced by a format string, in scan order,
mirroring the branch structure of `pyFormatAux` (names scanned before any
malformation is hit). -/
def placeholdersAux : Nat → List Char → List (List Char)
  | _, [] => []
  | 0, _ => []
  | n + 1, c :: cs =>
    if c = lbrace then
      match cs with
      | c2 :: rest =>
        if c2 = lbrace then placeholdersAux n rest
        else
          match splitBrace cs with
          | none => []
          | some pr => pr.1 :: placeholdersAux n pr.2
      | [] => []
    else if c = rbrace then
      match cs with
      | c2 :: rest => if c2 = rbrace then placeholdersAux n rest else []
      | [] => []
    else placeholdersAux n cs

/-- The field names referenced by a template. -/
def templatePlaceholders (template : List Char) : List (List Char) :=
  placeholdersAux template.length template

/-- `PromptOptimizer.get_optimized_prompt`: raise ValueError for an
unknown template name, otherwise substitute and pass the result through
the default optimize pipeline (format errors propagate). -/
def get_optimized_prompt (prompt_type : String) (kwargs : List (List Char × List Char)) : Except PyError (List Char) :=
  match prompt_templates.find? (fun pr => pr.1 == prompt_type) with
  | none => Except.error (PyError.valueError (S ("Unknown prompt type: " ++ prompt_type)))
  | some pr => Except.map optimizeDefault (pyFormat pr.2 kwargs)

/- ## Quality analysis -/

/-- The `clarity_keywords` of `_calculate_clarity`. -/
def clarity_keywords : List (List Char) :=
  [S "specific", S "exact", S "clear", S "show", S "provide"]

/-- `PromptOptimizer._calculate_clarity`: 10 points per keyword occurring
in the lower-cased prompt, capped at 100. -/
def _calculate_clarity (prompt : List Char) : Nat :=
  min (((clarity_keywords.filter (fun k => containsSub k (pyLower prompt))).map
    (fun _ => 10)).sum) 100

/-- `PromptOptimizer._calculate_specificity`: word count divided by 2
(true division, hence a rational value). -/
def _calculate_specificity (prompt : List Char) : Rat :=
  ((pySplit prompt).length : Rat) / 2

/-- The format-marker substrings of `_calculate_structure`. -/
def format_markers : List (List Char) := [S ":", S "1.", S "-", S "*"]

/-- `PromptOptimizer._calculate_structure`. -/
def _calculate_structure (prompt : List Char) : Nat :=
  if 2 ≤ prompt.count '\n' ∧ format_markers.any (fun x => containsSub x prompt) then 50
  else 25

/-- The keyword substrings of the third suggestion check. -/
def suggestion_keywords : List (List Char) := [S "example", S "code", S "specific"]

/-- `PromptOptimizer._get_suggestions`: three independent checks, each
appending a fixed advisory string, in a fixed order. -/
def _get_suggestions (prompt : List Char) : List (List Char) :=
  (if (pySplit prompt).length < 10 then [S "Add more context and details"] else [])
  ++ (if prompt.count '\n' < 2 then [S "Use sections or bullet points for clarity"] else [])
  ++ (if suggestion_keywords.any (fun x => containsSub x prompt) then []
      else [S "Include examples or specific cases"])

/-- The record returned by `analyze_prompt_quality`. -/
structure QualityAnalysis where
  length : Nat
  clarity_score : Nat
  specificity_score : Rat
  structure_score : Nat
  suggestions : List (List Char)
deriving DecidableEq

/-- `PromptOptimizer.analyze_prompt_quality`. -/
def analyze_prompt_quality (prompt : List Char) : QualityAnalysis :=
  ⟨(pySplit prompt).length, _calculate_clarity prompt, _calculate_specificity prompt,
   _calculate_structure prompt, _get_suggestions prompt⟩

/- ## Helper lemmas -/

/-- `dropWhile` over an append stops inside the left part when the left
part does not consist of matched characters only. -/
theorem dropWhile_append_left (p : Char → Bool) (l₁ l₂ : List Char)
    (h : l₁.dropWhile p ≠ []) :
    (l₁ ++ l₂).dropWhile p = l₁.dropWhile p ++ l₂ := by
  induction l₁ with
  | nil => simp at h
  | cons c cs ih =>
    by_cases hc : p c = true
    · simp only [List.dropWhile_cons, hc, if_true] at h ⊢
      simpa [hc] using ih h
    · simp [List.dropWhile_cons, hc]

/-- Closed form of `_structure_prompt`: the strip removes exactly the
leading newline of the template and its trailing indentation, leaving
the embedded prompt untouched. -/
theorem structure_prompt_eq (x : List Char) :
    _structure_prompt x
      = S "TASK: " ++ (x ++ S "\n\nREQUIREMENTS:\n1. Provide clear, step-by-step guidance\n2. Include code examples where applicable\n3. Highlight important considerations\n4. Suggest best practices\n\nFORMAT:\n- Use bullet points for lists\n- Use code blocks for code\n- Use bold for key terms") := by
  have d1 : structure_head.dropWhile isPySpace = S "TASK: " := by decide
  have d2 : structure_tail.reverse.dropWhile isPySpace
      = (S "\n\nREQUIREMENTS:\n1. Provide clear, step-by-step guidance\n2. Include code examples where applicable\n3. Highlight important considerations\n4. Suggest best practices\n\nFORMAT:\n- Use bullet points for lists\n- Use code blocks for code\n- Use bold for key terms").reverse := by
    decide
  show pyStrip (structure_head ++ (x ++ structure_tail)) = _
  rw [pyStrip, pyLstrip]
  rw [dropWhile_append_left _ _ _ (by rw [d1]; decide), d1]
  rw [List.reverse_append, List.reverse_append, List.append_assoc]
  rw [dropWhile_append_left _ _ _ (by rw [d2]; decide), d2]
  simp [List.reverse_append, List.append_assoc]

/-- A technique name outside the registry finds no entry in the dispatch
table. -/
theorem find?_tech_none (t : String)
    (h : t ∉ ["clarity", "specificity", "context", "structure", "examples"]) :
    optimization_techniques.find? (fun pr => pr.1 == t) = none := by
  simp only [List.mem_cons, List.not_mem_nil, or_false, not_or] at h
  obtain ⟨h1, h2, h3, h4, h5⟩ := h
  have e1 : ("clarity" == t) = false := beq_eq_false_iff_ne.mpr (Ne.symm h1)
  have e2 : ("specificity" == t) = false := beq_eq_false_iff_ne.mpr (Ne.symm h2)
  have e3 : ("context" == t) = false := beq_eq_false_iff_ne.mpr (Ne.symm h3)
  have e4 : ("structure" == t) = false := beq_eq_false_iff_ne.mpr (Ne.symm h4)
  have e5 : ("examples" == t) = false := beq_eq_false_iff_ne.mpr (Ne.symm h5)
  simp [optimization_techniques, List.find?, e1, e2, e3, e4, e5]

/- ## Theorems for the claims -/

/-- C9: optimize with an empty technique list is the identity on prompts. -/
theorem optimize_nil_id : ∀ p : List Char, optimize p [] = p := fun _ => rfl

/-- C1: `optimize p ["clarity", "structure"]` pipes the clarity output
into the structure template, so the result is the structure template with
the clarity-transformed text of `p` (not `p` itself) as the `TASK:` body;
and the pipeline is order dependent. -/
theorem optimize_clarity_structure_embedding :
    (∀ p : List Char, optimize p ["clarity", "structure"]
        = _structure_prompt (_enhance_clarity p)) ∧
    (∀ p : List Char, optimize p ["clarity", "structure"]
        = S "TASK: " ++ (_enhance_clarity p ++ S "\n\nREQUIREMENTS:\n1. Provide clear, step-by-step guidance\n2. Include code examples where applicable\n3. Highlight important considerations\n4. Suggest best practices\n\nFORMAT:\n- Use bullet points for lists\n- Use code blocks for code\n- Use bold for key terms")) ∧
    optimize (S "fix this bug") ["clarity", "structure"]
      ≠ _structure_prompt (S "fix this bug") ∧
    optimize (S "fix this bug") ["clarity", "structure"]
      ≠ optimize (S "fix this bug") ["structure", "clarity"] := by
  refine ⟨fun p => rfl, fun p => structure_prompt_eq (_enhance_clarity p),
    by decide, by decide⟩

/-- C2: a technique list of only unregistered names leaves the prompt
unchanged, and an unregistered name anywhere in a technique list has no
effect on the result. -/
theorem optimize_unknown_techniques_skipped :
    (∀ (p : List Char) (ts : List String),
      (∀ t ∈ ts, t ∉ ["clarity", "specificity", "context", "structure", "examples"]) →
      optimize p ts = p) ∧
    (∀ (p : List Char) (ts₁ ts₂ : List String) (u : String),
      u ∉ ["clarity", "specificity", "context", "structure", "examples"] →
      optimize p (ts₁ ++ u :: ts₂) = optimize p (ts₁ ++ ts₂)) := by
  constructor
  · intro p ts h
    induction ts with
    | nil => rfl
    | cons t ts ih =>
      have hf := find?_tech_none t (h t (List.mem_cons_self t ts))
      show List.foldl _ p (t :: ts) = p
      rw [List.foldl_cons]
      simp only [hf]
      exact ih fun t' ht' => h t' (List.mem_cons_of_mem t ht')
  · intro p ts₁ ts₂ u hu
    have hf := find?_tech_none u hu
    show List.foldl _ p (ts₁ ++ u :: ts₂) = List.foldl _ p (ts₁ ++ ts₂)
    rw [List.foldl_append, List.foldl_append, List.foldl_cons]
    simp only [hf]

/-- C2 witness: a concrete unknown technique name is a no-op. -/
theorem optimize_unknown_techniques_skipped_witness :
    optimize (S "hello") ["not_a_real_technique"] = S "hello" :=
  optimize_unknown_techniques_skipped.1 (S "hello") ["not_a_real_technique"] (by decide)

/-- A template name outside the registry finds no entry in the template
table. -/
theorem find?_template_none (name : String)
    (h : name ∉ ["code_review", "github_task", "optimization", "debugging"]) :
    prompt_templates.find? (fun pr => pr.1 == name) = none := by
  simp only [List.mem_cons, List.not_mem_nil, or_false, not_or] at h
  obtain ⟨h1, h2, h3, h4⟩ := h
  have e1 : ("code_review" == name) = false := beq_eq_false_iff_ne.mpr (Ne.symm h1)
  have e2 : ("github_task" == name) = false := beq_eq_false_iff_ne.mpr (Ne.symm h2)
  have e3 : ("optimization" == name) = false := beq_eq_false_iff_ne.mpr (Ne.symm h3)
  have e4 : ("debugging" == name) = false := beq_eq_false_iff_ne.mpr (Ne.symm h4)
  simp [prompt_templates, List.find?, e1, e2, e3, e4]

/-- C3: an unregistered template name yields the explicit ValueError with
the "Unknown prompt type" message, for every substitution mapping; no
substitution happens and no default string is returned. -/
theorem get_optimized_prompt_unknown_template :
    ∀ (name : String) (kwargs : List (List Char × List Char)),
      name ∉ ["code_review", "github_task", "optimization", "debugging"] →
      get_optimized_prompt name kwargs
        = Except.error (PyError.valueError (S ("Unknown prompt type: " ++ name))) := by
  intro name kwargs h
  rw [get_optimized_prompt, find?_template_none name h]

/-- C3 witness: the concrete unknown template name of the spec. -/
theorem get_optimized_prompt_unknown_template_witness :
    get_optimized_prompt "nonexistent_template" []
      = Except.error (PyError.valueError (S "Unknown prompt type: nonexistent_template")) :=
  get_optimized_prompt_unknown_template "nonexistent_template" [] (by decide)

/-- C5: `_enhance_clarity` replaces the three literal substrings in a
single left-to-right pass each, appends the fixed space-joined directive
block after two newlines, and strips; on "please okay thanks" the output
contains none of the three substrings. -/
theorem enhance_clarity_spec :
    (∀ p : List Char, _enhance_clarity p
        = pyStrip (pyReplace (pyReplace (pyReplace p (S "please") (S "")) (S "thanks") (S "")) (S "okay") (S "")
            ++ S "\n\nBe concise and direct. Provide specific examples. Focus on actionable insights.")) ∧
    optimize (S "please okay thanks") ["clarity"]
      = S "Be concise and direct. Provide specific examples. Focus on actionable insights." ∧
    containsSub (S "please") (optimize (S "please okay thanks") ["clarity"]) = false ∧
    containsSub (S "okay") (optimize (S "please okay thanks") ["clarity"]) = false ∧
    containsSub (S "thanks") (optimize (S "please okay thanks") ["clarity"]) = false := by
  refine ⟨fun p => ?_, by decide, by decide, by decide, by decide⟩
  rw [_enhance_clarity, List.append_assoc]
  have h : S "\n\n" ++ joinWith (S " ") clarity_add_rules
      = S "\n\nBe concise and direct. Provide specific examples. Focus on actionable insights." := by
    decide
  rw [h]
  rfl

/-- C6: the quality analysis of "a b c": 3 words, clarity 0, specificity
3/2, structure 25, and exactly the three fixed suggestions in order. -/
theorem analyze_abc_values :
    analyze_prompt_quality (S "a b c")
      = ⟨3, 0, 3 / 2, 25,
         [S "Add more context and details",
          S "Use sections or bullet points for clarity",
          S "Include examples or specific cases"]⟩ := by
  rw [analyze_prompt_quality]
  simp only [QualityAnalysis.mk.injEq]
  have h1 : (pySplit (S "a b c")).length = 3 := by decide
  refine ⟨h1, by decide, ?_, by decide, by decide⟩
  rw [_calculate_specificity, h1]
  norm_num

/-- Summing the constant 10 over a list gives 10 times its length. -/
theorem sum_map_ten (l : List (List Char)) :
    (l.map (fun _ => 10)).sum = 10 * l.length := by
  induction l with
  | nil => rfl
  | cons x xs ih =>
    simp only [List.map_cons, List.sum_cons, List.length_cons, ih]
    omega

/-- C7: the clarity score is min(100, 10 * number of matched keywords);
with all five keywords present it is exactly 50; and it never exceeds 50,
so the cap at 100 is unreachable. -/
theorem calculate_clarity_spec :
    (∀ p : List Char, _calculate_clarity p
        = min (10 * clarity_keywords.countP (fun k => containsSub k (pyLower p))) 100) ∧
    (∀ p : List Char, (∀ k ∈ clarity_keywords, containsSub k (pyLower p)) →
        _calculate_clarity p = 50) ∧
    (∀ p : List Char, _calculate_clarity p ≤ 50) := by
  have key : ∀ p : List Char, _calculate_clarity p
      = min (10 * clarity_keywords.countP (fun k => containsSub k (pyLower p))) 100 := by
    intro p
    rw [_calculate_clarity, sum_map_ten, ← List.countP_eq_length_filter]
  refine ⟨key, ?_, ?_⟩
  · intro p hall
    rw [_calculate_clarity, List.filter_eq_self.mpr hall]
    decide
  · intro p
    rw [key]
    have hle : clarity_keywords.countP (fun k => containsSub k (pyLower p)) ≤ 5 :=
      List.countP_le_length _
    calc min (10 * clarity_keywords.countP (fun k => containsSub k (pyLower p))) 100
        ≤ 10 * clarity_keywords.countP (fun k => containsSub k (pyLower p)) :=
          Nat.min_le_left _ _
      _ ≤ 10 * 5 := Nat.mul_le_mul_left 10 hle
      _ = 50 := rfl

/-- C7 witness: a prompt containing all five clarity keywords scores 50. -/
theorem calculate_clarity_spec_witness :
    _calculate_clarity (S "specific exact clear show provide") = 50 :=
  calculate_clarity_spec.2.1 (S "specific exact clear show provide") (by decide)

/-- C8: batch optimization preserves length and order, and each output is
the default-pipeline optimization of the corresponding input alone. -/
theorem batch_optimize_spec :
    ∀ prompts : List (List Char),
      (batch_optimize prompts).length = prompts.length ∧
      ∀ i : Nat, (batch_optimize prompts)[i]? = (prompts[i]?).map optimizeDefault := by
  intro ps
  exact ⟨by simp [batch_optimize], fun i => by simp [batch_optimize]⟩

/-- A missing substitution key among the scanned field names makes the
format walk stop with a KeyError (the first missing name in scan order). -/
theorem pyFormatAux_missing_key (subs : List (List Char × List Char)) :
    ∀ (n : Nat) (s : List Char),
      (∃ ph ∈ placeholdersAux n s, findSub ph subs = none) →
      ∃ ph, findSub ph subs = none ∧
        pyFormatAux subs n s = Except.error (PyError.keyError ph) := by
  intro n
  induction n with
  | zero =>
    intro s h
    rcases s with _ | ⟨c, cs⟩ <;> simp [placeholdersAux] at h
  | succ n ih =>
    intro s h
    rcases s with _ | ⟨c, cs⟩
    · simp [placeholdersAux] at h
    · by_cases hc : c = lbrace
      · subst hc
        rcases cs with _ | ⟨c2, rest⟩
        · simp [placeholdersAux] at h
        · by_cases hc2 : c2 = lbrace
          · subst hc2
            simp only [placeholdersAux, if_pos] at h
            obtain ⟨ph, hn, he⟩ := ih rest h
            refine ⟨ph, hn, ?_⟩
            simp [pyFormatAux, he, Except.map]
          · cases hsb : splitBrace (c2 :: rest) with
            | none => simp [placeholdersAux, hc2, hsb] at h
            | some pr =>
              cases hfind : findSub pr.1 subs with
              | none =>
                exact ⟨pr.1, hfind, by simp [pyFormatAux, hc2, hsb, hfind]⟩
              | some v =>
                simp only [placeholdersAux, if_pos, hc2, if_neg, if_false, hsb] at h
                obtain ⟨ph, hmem, hnone⟩ := h
                rcases List.mem_cons.mp hmem with heq | hmem'
                · subst heq; rw [hfind] at hnone; simp at hnone
                · obtain ⟨ph', hn', he'⟩ := ih pr.2 ⟨ph, hmem', hnone⟩
                  refine ⟨ph', hn', ?_⟩
                  simp [pyFormatAux, hc2, hsb, hfind, he', Except.map]
      · by_cases hcr : c = rbrace
        · subst hcr
          rcases cs with _ | ⟨c2, rest⟩
          · simp [placeholdersAux, hc] at h
          · by_cases hc2 : c2 = rbrace
            · subst hc2
              simp only [placeholdersAux, hc, if_neg, if_pos, if_false] at h
              obtain ⟨ph, hn, he⟩ := ih rest h
              refine ⟨ph, hn, ?_⟩
              simp [pyFormatAux, hc, he, Except.map]
            · simp [placeholdersAux, hc, hc2] at h
        · simp only [placeholdersAux, hc, hcr, if_neg, if_false] at h
          obtain ⟨ph, hn, he⟩ := ih cs h
          refine ⟨ph, hn, ?_⟩
          simp [pyFormatAux, hc, hcr, he, Except.map]

/-- Two substitution mappings that agree on every scanned field name
format a template identically. -/
theorem pyFormatAux_congr (subs₁ subs₂ : List (List Char × List Char)) :
    ∀ (n : Nat) (s : List Char),
      (∀ ph ∈ placeholdersAux n s, findSub ph subs₁ = findSub ph subs₂) →
      pyFormatAux subs₁ n s = pyFormatAux subs₂ n s := by
  intro n
  induction n with
  | zero =>
    intro s _
    rcases s with _ | ⟨c, cs⟩ <;> simp [pyFormatAux]
  | succ n ih =>
    intro s h
    rcases s with _ | ⟨c, cs⟩
    · simp [pyFormatAux]
    · by_cases hc : c = lbrace
      · subst hc
        rcases cs with _ | ⟨c2, rest⟩
        · simp [pyFormatAux]
        · by_cases hc2 : c2 = lbrace
          · subst hc2
            simp only [placeholdersAux, if_pos] at h
            simp [pyFormatAux, ih rest h]
          · cases hsb : splitBrace (c2 :: rest) with
            | none => simp [pyFormatAux, hc2, hsb]
            | some pr =>
              simp only [placeholdersAux, hc2, hsb, if_pos, if_neg, if_false] at h
              have hhead : findSub pr.1 subs₁ = findSub pr.1 subs₂ :=
                h pr.1 (List.mem_cons_self pr.1 _)
              have htail := ih pr.2 (fun ph hph => h ph (List.mem_cons_of_mem _ hph))
              simp only [pyFormatAux, hc2, hsb, if_pos, if_neg, if_false, hhead, htail]
      · by_cases hcr : c = rbrace
        · subst hcr
          rcases cs with _ | ⟨c2, rest⟩
          · simp [pyFormatAux, hc]
          · by_cases hc2 : c2 = rbrace
            · subst hc2
              simp only [placeholdersAux, hc, if_neg, if_pos, if_false] at h
              simp [pyFormatAux, hc, ih rest h]
            · simp [pyFormatAux, hc, hc2]
        · simp only [placeholdersAux, hc, hcr, if_neg, if_false] at h
          simp [pyFormatAux, hc, hcr, ih cs h]

/-- `find?` over an append returns the hit found in the left part. -/
theorem find?_append_of_some {α : Type} (p : α → Bool) (l₁ l₂ : List α) (a : α)
    (h : l₁.find? p = some a) : (l₁ ++ l₂).find? p = some a := by
  induction l₁ with
  | nil => simp [List.find?] at h
  | cons x xs ih =>
    by_cases hx : p x = true
    · rw [List.cons_append, List.find?_cons_of_pos _ hx]
      rwa [List.find?_cons_of_pos _ hx] at h
    · rw [List.cons_append, List.find?_cons_of_neg _ hx]
      rw [List.find?_cons_of_neg _ hx] at h
      exact ih h

/-- C4: for a registered template, a substitution mapping lacking a value
for some placeholder referenced by the template makes
`get_optimized_prompt` stop with a KeyError (the missing substitution
value error) instead of returning a string. -/
theorem get_optimized_prompt_missing_key :
    ∀ (name : String) (template : List Char) (kwargs : List (List Char × List Char)),
      (name, template) ∈ prompt_templates →
      (∃ ph ∈ templatePlaceholders template, findSub ph kwargs = none) →
      ∃ ph, findSub ph kwargs = none ∧
        get_optimized_prompt name kwargs = Except.error (PyError.keyError ph) := by
  intro name template kwargs hmem hmiss
  obtain ⟨ph, hn, he⟩ := pyFormatAux_missing_key kwargs template.length template hmiss
  refine ⟨ph, hn, ?_⟩
  simp only [prompt_templates, List.mem_cons, List.not_mem_nil, or_false,
    Prod.mk.injEq] at hmem
  rcases hmem with ⟨rfl, rfl⟩ | ⟨rfl, rfl⟩ | ⟨rfl, rfl⟩ | ⟨rfl, rfl⟩ <;>
    simp [get_optimized_prompt, prompt_templates, List.find?, pyFormat, he, Except.map]

/-- C4 witness: `code_review` with no substitution values raises a
KeyError. -/
theorem get_optimized_prompt_missing_key_witness :
    ∃ ph, findSub ph [] = none ∧
      get_optimized_prompt "code_review" [] = Except.error (PyError.keyError ph) :=
  get_optimized_prompt_missing_key "code_review"
    (S "Review the following code for issues:\n{code}\nFocus on: {focus_areas}") []
    (by decide) ⟨S "code", by decide, by decide⟩

/-- C10: for a registered template and a substitution mapping covering
all its placeholders, appending extra keys that match no placeholder
leaves the result of `get_optimized_prompt` unchanged: extra supplied
keys are silently ignored, never an error. -/
theorem get_optimized_prompt_extra_keys_ignored :
    ∀ (name : String) (template : List Char) (kwargs extra : List (List Char × List Char)),
      (name, template) ∈ prompt_templates →
      (∀ ph ∈ templatePlaceholders template, (findSub ph kwargs).isSome) →
      (∀ pr ∈ extra, pr.1 ∉ templatePlaceholders template) →
      get_optimized_prompt name (kwargs ++ extra) = get_optimized_prompt name kwargs := by
  intro name template kwargs extra hmem hcover _hextra
  have hlook : ∀ ph ∈ templatePlaceholders template,
      findSub ph (kwargs ++ extra) = findSub ph kwargs := by
    intro ph hph
    obtain ⟨v, hv⟩ := Option.isSome_iff_exists.mp (hcover ph hph)
    obtain ⟨pr, hpr, hsnd⟩ := Option.map_eq_some'.mp hv
    rw [hv, findSub, find?_append_of_some _ _ _ _ hpr]
    simp [hsnd]
  have hfmt : pyFormatAux (kwargs ++ extra) template.length template
      = pyFormatAux kwargs template.length template :=
    pyFormatAux_congr _ _ template.length template hlook
  simp only [prompt_templates, List.mem_cons, List.not_mem_nil, or_false,
    Prod.mk.injEq] at hmem
  rcases hmem with ⟨rfl, rfl⟩ | ⟨rfl, rfl⟩ | ⟨rfl, rfl⟩ | ⟨rfl, rfl⟩ <;>
    simp [get_optimized_prompt, prompt_templates, List.find?, pyFormat, hfmt]

/-- C10 witness: an extra key on `github_task` changes nothing. -/
theorem get_optimized_prompt_extra_keys_ignored_witness :
    get_optimized_prompt "github_task"
        ([(S "task", S "summarize issues"), (S "context", S "open source repo")]
          ++ [(S "extra_key", S "ignored value")])
      = get_optimized_prompt "github_task"
          [(S "task", S "summarize issues"), (S "context", S "open source repo")] :=
  get_optimized_prompt_extra_keys_ignored "github_task"
    (S "Help me with this GitHub task:\n{task}\nContext: {context}")
    [(S "task", S "summarize issues"), (S "context", S "open source repo")]
    [(S "extra_key", S "ignored value")]
    (by decide) (by decide) (by decide)
